import Mathlib

/-!
Verification of the endpoint-discovery and request-execution core of the
unraid-api client library (src/unraid_api/client.py and
src/unraid_api/exceptions.py), as a shallow embedding in Lean.  Network
I/O is modelled by passing the scripted outcome of each HTTP call (a
response or a raised exception) as an explicit argument, and every
network call actually issued is recorded in a trace list.
-/

namespace UnraidApi

/-! ### Character-list and string helpers (modelling Python str operations) -/

/-- Does the second character list start with the first one. -/
def chStarts : List Char → List Char → Bool
  | [], _ => true
  | _ :: _, [] => false
  | a :: as, b :: bs => a == b && chStarts as bs

/-- Does the haystack contain the needle as a contiguous sublist
(Python `needle in hay`). -/
def chHasSub (needle : List Char) : List Char → Bool
  | [] => needle.isEmpty
  | b :: bs => chStarts needle (b :: bs) || chHasSub needle bs

/-- Python `needle in hay` on strings. -/
def strHasSub (needle hay : String) : Bool :=
  chHasSub needle.data hay.data

/-- Python `s.startswith(pre)`. -/
def strStarts (pre s : String) : Bool :=
  chStarts pre.data s.data

/-- Python `s.endswith(suffix)`. -/
def strEnds (suffix s : String) : Bool :=
  chStarts suffix.data.reverse s.data.reverse

/-- Python `s.lower()` (ASCII case folding suffices here). -/
def strToLower (s : String) : String :=
  String.mk (s.data.map Char.toLower)

/-- Python `s.rstrip("/")`. -/
def rstripSlash (s : String) : String :=
  String.mk ((s.data.reverse.dropWhile (fun c => c == '/')).reverse)

/-- The part of the character list after the first occurrence of the
scheme separator `://`, if any (Python `s.split("://", 1)[1]`). -/
def afterSchemeSep : List Char → Option (List Char)
  | [] => none
  | c :: cs =>
    if chStarts [':', '/', '/'] (c :: cs) then some (cs.drop 2)
    else afterSchemeSep cs

/-- `UnraidClient._get_clean_host` (client.py lines 156-161): strip a
scheme marker and trailing slashes from the configured host. -/
def cleanHost (host : String) : String :=
  let h : String :=
    match afterSchemeSep host.data with
    | some rest => String.mk rest
    | none => host
  rstripSlash h

/-! ### Python exceptions in flight -/

/-- Exceptions that can be raised along the request paths, with the
class facts relevant to the except clauses: `aiohttp.ClientError` and
its subclasses (`ClientSSLError`, `ServerTimeoutError`,
`ClientResponseError`), the plain `TimeoutError` that the total request
timeout raises (`asyncio.TimeoutError`), which is not an
`aiohttp.ClientError`, and the builtin `ValueError` that
`urllib.parse` raises for invalid bracketed hosts and invalid ports.
`ServerTimeoutError` inherits from both `ClientConnectionError` and
`TimeoutError`. -/
inductive PyNetExc where
  | clientError (msg : String)
  | clientSSLError (msg : String)
  | serverTimeoutError (msg : String)
  | asyncioTimeoutError (msg : String)
  | clientResponseError (status : Nat)
  | valueError (msg : String)

/-- isinstance check against `aiohttp.ClientError`. -/
def PyNetExc.isClientError : PyNetExc → Bool
  | .clientError _ => true
  | .clientSSLError _ => true
  | .serverTimeoutError _ => true
  | .clientResponseError _ => true
  | .asyncioTimeoutError _ => false
  | .valueError _ => false

/-- isinstance check against the builtin `TimeoutError`. -/
def PyNetExc.isTimeoutError : PyNetExc → Bool
  | .serverTimeoutError _ => true
  | .asyncioTimeoutError _ => true
  | _ => false

/-- isinstance check against `aiohttp.ClientSSLError`. -/
def PyNetExc.isClientSSLError : PyNetExc → Bool
  | .clientSSLError _ => true
  | _ => false

/-- Stringification of the exception, used when it is interpolated into
an error message. -/
def PyNetExc.msg : PyNetExc → String
  | .clientError m => m
  | .clientSSLError m => m
  | .serverTimeoutError m => m
  | .asyncioTimeoutError m => m
  | .clientResponseError s => "HTTP status " ++ toString s
  | .valueError m => m

/-! ### A model of Python `urllib.parse.urlparse` (CPython 3.11),
restricted to the fields the client reads (`scheme`, `hostname`,
`port`, `path`).  `urlsplit` itself can raise `ValueError` for
mismatched brackets in the authority and for a bracketed host that is
not an IPv6 or IPvFuture address; the `port` accessor raises
`ValueError` for a non-digit or out-of-range port.  Not modelled: the
NFKC normalization check on the netloc (`_checknetloc`), which never
fires on ASCII input, and repr escaping inside error messages. -/

/-- Leading WHATWG C0-control-or-space stripping followed by removal of
tab, CR and LF everywhere, as `urlsplit` preprocesses its input. -/
def preprocessUrl (s : List Char) : List Char :=
  (s.dropWhile (fun c => c.toNat ≤ 32)).filter
    (fun c => c != '\t' && c != '\r' && c != '\n')

def isSchemeChar (c : Char) : Bool :=
  c.isAlpha || c.isDigit || c == '+' || c == '-' || c == '.'

/-- Accumulate candidate scheme characters up to the first `:`. -/
def schemeSplitAux (acc : List Char) : List Char → Option (List Char × List Char)
  | [] => none
  | c :: cs =>
    if c == ':' then some (acc.reverse, cs)
    else if isSchemeChar c then schemeSplitAux (c :: acc) cs
    else none

/-- Split off a URL scheme, returning the lowercased scheme and the
rest: the part before the first `:` counts as a scheme when it is
non-empty, begins with an ASCII letter and consists of scheme
characters. -/
def splitScheme (s : List Char) : String × List Char :=
  match schemeSplitAux [] s with
  | some (sch, rest) =>
    match sch with
    | [] => ("", s)
    | c :: _ =>
      if c.isAlpha then (String.mk (sch.map Char.toLower), rest)
      else ("", s)
  | none => ("", s)

/-- Take characters until one of the delimiters, returning the taken
part and the rest (delimiter included in the rest). -/
def takeUntilDelims (delims : List Char) : List Char → List Char × List Char
  | [] => ([], [])
  | c :: cs =>
    if delims.contains c then ([], c :: cs)
    else
      let p := takeUntilDelims delims cs
      (c :: p.1, p.2)

/-- The part of the authority after the last `@` (drops userinfo),
as `netloc.rpartition("@")[2]`. -/
def afterLastAt (s : List Char) : List Char :=
  (s.reverse.takeWhile (fun c => c != '@')).reverse

/-- Python `s.partition(c)` restricted to presence: the parts before
and after the first occurrence of `c`, or `none` when absent. -/
def chSplitFirst (c : Char) : List Char → Option (List Char × List Char)
  | [] => none
  | x :: xs =>
    if x == c then some ([], xs)
    else
      match chSplitFirst c xs with
      | some p => some (x :: p.1, p.2)
      | none => none

/-- Python `s.split(c)` on character lists. -/
def splitOnChar (c : Char) : List Char → List (List Char)
  | [] => [[]]
  | x :: xs =>
    let r := splitOnChar c xs
    if x == c then [] :: r
    else
      match r with
      | h :: t => (x :: h) :: t
      | [] => [[x]]

/-- Decimal value of a digit list. -/
def digitsToNat (ds : List Char) : Nat :=
  ds.foldl (fun n c => n * 10 + (c.toNat - 48)) 0

def isHexDigitCh (c : Char) : Bool :=
  c.isDigit || ('a' ≤ c && c ≤ 'f') || ('A' ≤ c && c ≤ 'F')

/-- `ipaddress` octet validity: 1-3 ASCII digits, no leading zero
unless the octet is exactly `0`, value at most 255. -/
def validOctet (s : List Char) : Bool :=
  !s.isEmpty && s.all Char.isDigit && decide (s.length ≤ 3) &&
    (decide (s = ['0']) || decide (s.headD '0' ≠ '0')) &&
    decide (digitsToNat s ≤ 255)

/-- `ipaddress.IPv4Address` textual validity: four dot-separated valid
octets. -/
def validIPv4 (s : List Char) : Bool :=
  let octs := splitOnChar '.' s
  decide (octs.length = 4) && octs.all validOctet

/-- An IPv6 hextet: one to four hexadecimal digits. -/
def validHextet (h : List Char) : Bool :=
  !h.isEmpty && decide (h.length ≤ 4) && h.all isHexDigitCh

/-- `ipaddress._ip_int_from_string` validity on the colon-separated
parts of an IPv6 address (after the IPv4-suffix transformation): at
most one `::` run, leading or trailing lone colons only as part of a
`::`, at most eight hextets with at least one elided by a `::`, and
every written hextet valid. -/
def validIPv6Hexparts (parts : List (List Char)) : Bool :=
  let n := parts.length
  if decide (n > 9) then false
  else
    match (List.range n).filter
        (fun i => decide (1 ≤ i) && decide (i ≤ n - 2) && (parts.getD i [' ']).isEmpty) with
    | [] =>
      decide (n = 8) && !(parts.getD 0 [' ']).isEmpty && !(parts.getD (n - 1) [' ']).isEmpty &&
        parts.all validHextet
    | [i] =>
      let hi := if (parts.getD 0 [' ']).isEmpty then i - 1 else i
      let lo0 := n - i - 1
      let lo := if (parts.getD (n - 1) [' ']).isEmpty then lo0 - 1 else lo0
      if (parts.getD 0 [' ']).isEmpty && decide (i - 1 ≠ 0) then false
      else if (parts.getD (n - 1) [' ']).isEmpty && decide (lo0 - 1 ≠ 0) then false
      else if decide (8 - (hi + lo) < 1) then false
      else (parts.take hi).all validHextet && (parts.drop (n - lo)).all validHextet
    | _ => false

/-- IPv6 address body validity: at least three colon-separated parts; a
final part containing a dot must be a valid IPv4 address and counts as
two hextets. -/
def validIPv6Body (s : List Char) : Bool :=
  let parts := splitOnChar ':' s
  if decide (parts.length < 3) then false
  else
    let lastPart := parts.getLastD []
    if lastPart.contains '.' then
      validIPv4 lastPart && validIPv6Hexparts (parts.dropLast ++ [['0'], ['0']])
    else validIPv6Hexparts parts

/-- `ipaddress.IPv6Address` textual validity, including an optional
`%zone` suffix (non-empty, no further `%`). -/
def validIPv6 (s : List Char) : Bool :=
  match chSplitFirst '%' s with
  | some p => !p.2.isEmpty && !p.2.contains '%' && validIPv6Body p.1
  | none => validIPv6Body s

/-- The regular expression `\Av[a-fA-F0-9]+\..+\Z` of
`_check_bracketed_host`: `v`, hex digits, a dot, then a non-empty
newline-free remainder. -/
def ipvFutureOk (s : List Char) : Bool :=
  match s with
  | 'v' :: rest =>
    let hexPart := rest.takeWhile isHexDigitCh
    !hexPart.isEmpty &&
      (match rest.drop hexPart.length with
       | '.' :: tail => !tail.isEmpty && tail.all (fun c => c != '\n')
       | _ => false)
  | _ => false

/-- `urllib.parse._check_bracketed_host` (CPython 3.11): a bracketed
host must be an IPvFuture form or an IPv6 address; a bracketed IPv4
address and anything else raise `ValueError`. -/
def checkBracketedHost (hostname : List Char) : Except PyNetExc Unit :=
  if chStarts ['v'] hostname then
    if ipvFutureOk hostname then Except.ok ()
    else Except.error (PyNetExc.valueError "IPvFuture address is invalid")
  else if validIPv4 hostname then
    Except.error (PyNetExc.valueError "An IPv4 address cannot be in brackets")
  else if validIPv6 hostname then Except.ok ()
  else
    Except.error (PyNetExc.valueError
      ("\x27" ++ String.mk hostname ++ "\x27 does not appear to be an IPv4 or IPv6 address"))

/-- `netloc.partition("[")[2].partition("]")[0]`. -/
def bracketedHostOf (netloc : List Char) : List Char :=
  match chSplitFirst '[' netloc with
  | some p =>
    match chSplitFirst ']' p.2 with
    | some q => q.1
    | none => p.2
  | none => []

/-- `_NetlocResultMixinStr._hostinfo`: the host part and the raw port
text of the authority (userinfo dropped; a bracketed host is the text
between `[` and `]`, with the port after a colon following the `]`;
otherwise the host ends at the first colon). -/
def hostinfoOf (netloc : List Char) : List Char × List Char :=
  let hi := afterLastAt netloc
  match chSplitFirst '[' hi with
  | some p =>
    match chSplitFirst ']' p.2 with
    | some q =>
      (q.1,
       match chSplitFirst ':' q.2 with
       | some pr => pr.2
       | none => [])
    | none => (p.2, [])
  | none =>
    match chSplitFirst ':' hi with
    | some q => (q.1, q.2)
    | none => (hi, [])

/-- The `hostname` accessor: `none` for an empty host; otherwise the
host with the part before any `%` zone separator lowercased and the
zone kept as written. -/
def hostnameOf (host : List Char) : Option String :=
  if host.isEmpty then none
  else
    match chSplitFirst '%' host with
    | some p => some (String.mk (p.1.map Char.toLower ++ '%' :: p.2))
    | none => some (String.mk (host.map Char.toLower))

/-- `_splitparams`, applied by `urlparse` on top of `urlsplit`: when
the path contains a `;`, the params after the first `;` inside the
last segment are split off the path. -/
def splitParams (path : List Char) : List Char :=
  if path.contains ';' then
    let lastSeg := (path.reverse.takeWhile (fun c => c != '/')).reverse
    let stem := path.take (path.length - lastSeg.length)
    if path.contains '/' then
      match chSplitFirst ';' lastSeg with
      | some p => stem ++ p.1
      | none => path
    else
      match chSplitFirst ';' path with
      | some p => p.1
      | none => path
  else path

structure ParsedUrl where
  scheme : String
  netloc : String
  path : String
  hostname : Option String
  portRaw : Option String

/-- The bracket validation `urlsplit` performs on the authority: a `[`
without `]` (or vice versa) raises, and a bracketed host must pass
`_check_bracketed_host`. -/
def urlsplitBracketCheck (netloc : List Char) : Except PyNetExc Unit :=
  if (netloc.contains '[' && !netloc.contains ']') ||
     (netloc.contains ']' && !netloc.contains '[') then
    Except.error (PyNetExc.valueError "Invalid IPv6 URL")
  else if netloc.contains '[' && netloc.contains ']' then
    checkBracketedHost (bracketedHostOf netloc)
  else Except.ok ()

/-- `urllib.parse.urlparse` on the fields the client reads.  Raises
(`Except.error`) exactly where CPython 3.11 `urlsplit` raises: a `[`
without `]` (or vice versa) in the authority, or a bracketed host that
fails `_check_bracketed_host`. -/
def urlparse (url : String) : Except PyNetExc ParsedUrl :=
  let cleaned := preprocessUrl url.data
  let sp := splitScheme cleaned
  let scheme := sp.1
  let rest := sp.2
  let nl :=
    if chStarts ['/', '/'] rest then takeUntilDelims ['/', '?', '#'] (rest.drop 2)
    else ([], rest)
  let netloc := nl.1
  match urlsplitBracketCheck netloc with
  | Except.error e => Except.error e
  | Except.ok _ =>
    let pathSplit := takeUntilDelims ['?', '#'] nl.2
    let hp := hostinfoOf netloc
    Except.ok
      { scheme := scheme
        netloc := String.mk netloc
        path := String.mk (splitParams pathSplit.1)
        hostname := hostnameOf hp.1
        portRaw := if hp.2.isEmpty then none else some (String.mk hp.2) }

/-- The raising `port` accessor (CPython 3.11
`_NetlocResultMixinBase.port`): `none` when no port text is present;
an all-ASCII-digits port is converted and range-checked against
0-65535; anything else raises `ValueError`. -/
def ParsedUrl.port (p : ParsedUrl) : Except PyNetExc (Option Nat) :=
  match p.portRaw with
  | none => Except.ok none
  | some s =>
    if !s.data.isEmpty && s.data.all Char.isDigit then
      if digitsToNat s.data ≤ 65535 then Except.ok (some (digitsToNat s.data))
      else Except.error (PyNetExc.valueError "Port out of range 0-65535")
    else
      Except.error (PyNetExc.valueError
        ("Port could not be cast to integer value as \x27" ++ s ++ "\x27"))

/-- Python f-string rendering of an `Optional[str]` hostname
(`None` when absent). -/
def optHostStr : Option String → String
  | some h => h
  | none => "None"

/-! ### JSON values as decoded Python objects -/

inductive Json where
  | null
  | bool (b : Bool)
  | num (n : Int)
  | str (s : String)
  | arr (elems : List Json)
  | obj (entries : List (String × Json))

/-- Python `d.get(k, default)` on a decoded dict (keys are unique after
JSON decoding; on a non-dict the client never calls `.get`, so the
default is returned). -/
def Json.getD (j : Json) (k : String) (d : Json) : Json :=
  match j with
  | .obj kvs =>
    match kvs.lookup k with
    | some v => v
    | none => d
  | _ => d

/-- Python `k in d`. -/
def Json.hasKey (j : Json) (k : String) : Bool :=
  match j with
  | .obj kvs => kvs.any (fun kv => kv.1 == k)
  | _ => false

/-- Python truthiness of a decoded JSON value. -/
def Json.truthy : Json → Bool
  | .null => false
  | .bool b => b
  | .num n => n != 0
  | .str s => !s.isEmpty
  | .arr xs => !xs.isEmpty
  | .obj kvs => !kvs.isEmpty

/-- Python `repr` of a decoded JSON value (string escaping inside
literals is not reproduced; no input in this development needs it). -/
def pyRepr : Json → String
  | Json.null => "None"
  | Json.bool b => if b then "True" else "False"
  | Json.num n => toString n
  | Json.str s => "\x27" ++ s ++ "\x27"
  | Json.arr xs =>
    "[" ++ String.intercalate ", " (xs.attach.map (fun e => pyRepr e.val)) ++ "]"
  | Json.obj kvs =>
    "\x7b" ++
      String.intercalate ", "
        (kvs.attach.map (fun e => "\x27" ++ e.val.1 ++ "\x27: " ++ pyRepr e.val.2)) ++
      "\x7d"
decreasing_by
  · have := List.sizeOf_lt_of_mem e.property
    simp only [Json.arr.sizeOf_spec]
    omega
  · have h1 := List.sizeOf_lt_of_mem e.property
    have h2 : sizeOf e.val.2 < sizeOf e.val := by
      obtain ⟨⟨a, b⟩, hm⟩ := e
      simp
    simp only [Json.obj.sizeOf_spec]
    omega

/-- Python `str` of a decoded JSON value. -/
def pyStr : Json → String
  | Json.str s => s
  | j => pyRepr j

/-- Rendering of one GraphQL error entry into message text, as done both
in `UnraidClient.query` (client.py lines 380-388) and in
`UnraidAPIError.__str__` (exceptions.py lines 31-39): a dict error uses
its `message` (defaulting to `str(err)`) with an optional
` (path: ...)` suffix; any other error is stringified. -/
def renderErr : Json → String
  | Json.obj kvs =>
    let e := Json.obj kvs
    let msgVal : Json := e.getD "message" (Json.str (pyStr e))
    let path : Json := e.getD "path" Json.null
    if path.truthy then pyStr msgVal ++ " (path: " ++ pyStr path ++ ")"
    else pyStr msgVal
  | e => pyStr e

/-! ### The exception taxonomy of src/unraid_api/exceptions.py -/

inductive UnraidError where
  | apiError (message : String) (errors : List Json)
  | connectionError (message : String)
  | sslError (message : String)
  | authenticationError (message : String)
  | timeoutError (message : String)

/-- The Python class hierarchy: `UnraidSSLError` inherits from
`UnraidConnectionError` (exceptions.py line 57), so an isinstance check
against `UnraidConnectionError` accepts both. -/
def UnraidError.isConnectionError : UnraidError → Bool
  | .connectionError _ => true
  | .sslError _ => true
  | _ => false

/-- All five classes inherit from the base `UnraidAPIError`. -/
def UnraidError.isAPIError : UnraidError → Bool := fun _ => true

def UnraidError.message : UnraidError → String
  | .apiError m _ => m
  | .connectionError m => m
  | .sslError m => m
  | .authenticationError m => m
  | .timeoutError m => m

/-- The `errors` attribute (`errors or []`): only `UnraidAPIError` is
ever constructed with a non-default error list. -/
def UnraidError.errorsList : UnraidError → List Json
  | .apiError _ es => es
  | _ => []

/-- `UnraidAPIError.__str__` (exceptions.py lines 27-41). -/
def UnraidError.toStr (e : UnraidError) : String :=
  if e.errorsList.isEmpty then e.message
  else e.message ++ ": " ++ String.intercalate "; " (e.errorsList.map renderErr)

/-! ### GraphQL envelope interpretation (`UnraidClient.query`) -/

/-- What `query` can raise while interpreting the decoded envelope:
either an `UnraidAPIError`, or a Python `TypeError` from `dict(data)` on
a non-dict value (or from iterating a non-list `errors` value — Python
would also accept other iterables there, but the envelope's `errors` is
an array whenever present, per the GraphQL response shape). -/
inductive QueryError where
  | raised (e : UnraidError)
  | pyTypeError

/-- Python `dict(data)` where `data` came from the decoded envelope. -/
def pyDict : Json → Except QueryError Json
  | Json.obj kvs => Except.ok (Json.obj kvs)
  | _ => Except.error QueryError.pyTypeError

/-- The envelope-interpretation tail of `UnraidClient.query`
(client.py lines 374-410), applied to the decoded response body:
`data = response.get("data", {})`; when `"errors" in response`, either
return `dict(data)` for truthy `data` (partial failure is only logged)
or raise `UnraidAPIError("GraphQL query failed", errors=errors)`;
without an `errors` key, return `dict(data)` unconditionally. -/
def interpretEnvelope (response : Json) : Except QueryError Json :=
  let data := response.getD "data" (Json.obj [])
  if response.hasKey "errors" then
    match response.getD "errors" Json.null with
    | Json.arr errors =>
      if data.truthy then pyDict data
      else Except.error (QueryError.raised (UnraidError.apiError "GraphQL query failed" errors))
    | _ => Except.error QueryError.pyTypeError
  else pyDict data

/-! ### HTTP transport model -/

/-- An HTTP response as observed through aiohttp: status code, the
`Location` header if present, the text body, and the decoded JSON body
(used only on the paths that call `response.json()`). -/
structure HttpResponse where
  status : Nat
  location : Option String
  body : String
  jsonBody : Json

/-- The immutable connection configuration held by `UnraidClient`
(client.py lines 95-99); `host` is the stored `self.host`. -/
structure Config where
  host : String
  httpPort : Nat
  httpsPort : Nat

def DEFAULT_HTTP_PORT : Nat := 80

def DEFAULT_HTTPS_PORT : Nat := 443

/-- A network call issued by the client, for the trace. -/
inductive NetCall where
  | get (url : String)
  | post (url : String)

def NetCall.isPost : NetCall → Bool
  | .post _ => true
  | .get _ => false

/-! ### Endpoint discovery (`UnraidClient._discover_redirect_url`) -/

/-- The URL of the plaintext discovery probe (client.py lines 197-201). -/
def probeUrl (cfg : Config) : String :=
  let suffix := if cfg.httpPort = DEFAULT_HTTP_PORT then "" else ":" ++ toString cfg.httpPort
  "http://" ++ cleanHost cfg.host ++ suffix ++ "/graphql"

/-- The myunraid.net test on a parsed Location hostname (client.py lines
220-223): `hostname and (hostname == "myunraid.net" or
hostname.endswith(".myunraid.net"))`; an absent (falsy) hostname fails
the test. -/
def isMyunraidHost : Option String → Bool
  | some hn => hn == "myunraid.net" || strEnds ".myunraid.net" hn
  | none => false

/-- Classification of a received probe response (client.py lines
210-260).  The `Option` produced by the redirect analysis is `none`
exactly when control falls through to the 400-body check and the
generic outcome; the `urlparse` call (line 216) and the `parsed.port`
accessor (line 232) can raise `ValueError`, which propagates. -/
def discoverClassify (response : HttpResponse) : Except PyNetExc (Option String × Bool) :=
  let redirectCase : Except PyNetExc (Option (Option String × Bool)) :=
    if response.status = 301 ∨ response.status = 302 ∨
       response.status = 307 ∨ response.status = 308 then
      match response.location with
      | some redirectUrl =>
        if redirectUrl = "" then Except.ok none
        else
          match urlparse redirectUrl with
          | Except.error e => Except.error e
          | Except.ok parsed =>
            if isMyunraidHost parsed.hostname then Except.ok (some (some redirectUrl, true))
            else if parsed.scheme = "https" then
              match parsed.port with
              | Except.error e => Except.error e
              | Except.ok port =>
                if port = some DEFAULT_HTTPS_PORT then
                  Except.ok (some
                    (some ("https://" ++ optHostStr parsed.hostname ++ parsed.path), true))
                else Except.ok (some (some redirectUrl, true))
            else Except.ok none
      | none => Except.ok none
    else Except.ok none
  match redirectCase with
  | Except.error e => Except.error e
  | Except.ok (some r) => Except.ok r
  | Except.ok none =>
    if response.status = 400 ∧
       strHasSub "the plain http request was sent to https port" (strToLower response.body) = true then
      Except.ok (none, true)
    else Except.ok (none, false)

/-- `UnraidClient._discover_redirect_url` (client.py lines 163-265),
with the single GET probe scripted by `probe`: equal ports short-circuit
before any network call; a received response is classified.  The try
block covers both the GET and the classification; an
`aiohttp.ClientError` raised inside it is swallowed into the
`(None, True)` fallback, and any other exception (the plain
`TimeoutError` of the total timeout, a `ValueError` from `urlparse` or
`parsed.port`) propagates. -/
def discover (cfg : Config) (probe : Except PyNetExc HttpResponse) :
    Except PyNetExc (Option String × Bool) × List NetCall :=
  if cfg.httpPort = cfg.httpsPort then
    (Except.ok (none, true), [])
  else
    let tryBody : Except PyNetExc (Option String × Bool) :=
      match probe with
      | Except.error e => Except.error e
      | Except.ok response => discoverClassify response
    let result : Except PyNetExc (Option String × Bool) :=
      match tryBody with
      | Except.error e =>
        if e.isClientError then Except.ok (none, true) else Except.error e
      | Except.ok r => Except.ok r
    (result, [NetCall.get (probeUrl cfg)])

/-! ### Request execution (`UnraidClient._make_request`) -/

/-- The mutable endpoint cache of the client (`self._resolved_url`). -/
structure ClientState where
  resolvedUrl : Option String

/-- Endpoint synthesis from the discovery verdict (client.py lines
293-308). -/
def synthesizeUrl (cfg : Config) (useSsl : Bool) : String :=
  let protocol := if useSsl then "https" else "http"
  let portSuffix :=
    if useSsl then
      if cfg.httpsPort ≠ DEFAULT_HTTPS_PORT then ":" ++ toString cfg.httpsPort else ""
    else
      if cfg.httpPort ≠ DEFAULT_HTTP_PORT then ":" ++ toString cfg.httpPort else ""
  protocol ++ "://" ++ cleanHost cfg.host ++ portSuffix ++ "/graphql"

/-- The resolution step of `_make_request` (client.py lines 288-309):
with a cached endpoint, use it unchanged; otherwise run discovery, cache
a truthy candidate redirect URL verbatim, and otherwise cache the
synthesized URL.  An exception escaping discovery leaves the cache
unchanged (the discovery call is outside the try block). -/
def resolveEndpoint (cfg : Config) (st : ClientState)
    (probe : Except PyNetExc HttpResponse) :
    Except PyNetExc (String × ClientState) × List NetCall :=
  match st.resolvedUrl with
  | some u => (Except.ok (u, st), [])
  | none =>
    match discover cfg probe with
    | (Except.error e, calls) => (Except.error e, calls)
    | (Except.ok (redirectUrl, useSsl), calls) =>
      let url : String :=
        match redirectUrl with
        | some r => if r = "" then synthesizeUrl cfg useSsl else r
        | none => synthesizeUrl cfg useSsl
      (Except.ok (url, { resolvedUrl := some url }), calls)

/-- The body of the try block in `_make_request` (client.py lines
314-343), with the two possible POSTs scripted by `post1` and `post2`
(`post2` is consulted only when the single redirect hop re-issues the
request).  Errors are split into Python exceptions that the except
clauses will translate (`Sum.inl`) and Unraid exceptions raised directly
in the body, which no except clause matches (`Sum.inr`).
`response.raise_for_status()` raises `ClientResponseError` exactly for
status >= 400. -/
def makeRequestBody (url : String) (st : ClientState)
    (post1 post2 : Except PyNetExc HttpResponse) :
    Except (PyNetExc ⊕ UnraidError) Json × ClientState × List NetCall :=
  match post1 with
  | Except.error e => (Except.error (Sum.inl e), st, [NetCall.post url])
  | Except.ok response =>
    if response.status = 301 ∨ response.status = 302 ∨
       response.status = 307 ∨ response.status = 308 then
      match response.location with
      | some redirectUrl =>
        if redirectUrl = "" then
          (Except.error (Sum.inr (UnraidError.connectionError
              ("Redirect " ++ toString response.status ++ " without Location header"))),
           st, [NetCall.post url])
        else
          let st2 : ClientState := { resolvedUrl := some redirectUrl }
          match post2 with
          | Except.error e =>
            (Except.error (Sum.inl e), st2, [NetCall.post url, NetCall.post redirectUrl])
          | Except.ok r2 =>
            if r2.status ≥ 400 then
              (Except.error (Sum.inl (PyNetExc.clientResponseError r2.status)), st2,
               [NetCall.post url, NetCall.post redirectUrl])
            else
              (Except.ok r2.jsonBody, st2, [NetCall.post url, NetCall.post redirectUrl])
      | none =>
        (Except.error (Sum.inr (UnraidError.connectionError
            ("Redirect " ++ toString response.status ++ " without Location header"))),
         st, [NetCall.post url])
    else if response.status = 401 ∨ response.status = 403 then
      (Except.error (Sum.inr (UnraidError.authenticationError
          "Invalid API key or insufficient permissions")),
       st, [NetCall.post url])
    else if response.status ≥ 400 then
      (Except.error (Sum.inl (PyNetExc.clientResponseError response.status)), st,
       [NetCall.post url])
    else
      (Except.ok response.jsonBody, st, [NetCall.post url])

/-- What a call to `_make_request` can fail with: a (translated or
directly raised) Unraid exception, or an exception that escaped
untranslated (out of discovery, or past every except clause). -/
inductive ReqError where
  | unraid (e : UnraidError)
  | uncaught (e : PyNetExc)

/-- The except clauses of `_make_request` (client.py lines 345-350), in
order: `TimeoutError`, then `aiohttp.ClientSSLError`, then
`aiohttp.ClientError`; an exception matching none of them (e.g. a
`ValueError`) propagates uncaught. -/
def handleExc (e : PyNetExc) : ReqError :=
  if e.isTimeoutError then
    ReqError.unraid (UnraidError.timeoutError ("Request timed out: " ++ e.msg))
  else if e.isClientSSLError then
    ReqError.unraid (UnraidError.sslError ("SSL certificate verification failed: " ++ e.msg))
  else if e.isClientError then
    ReqError.unraid (UnraidError.connectionError ("Connection failed: " ++ e.msg))
  else ReqError.uncaught e

structure RequestOutcome where
  result : Except ReqError Json
  state : ClientState
  calls : List NetCall

/-- `UnraidClient._make_request` (client.py lines 267-350): resolve the
endpoint (possibly probing), POST, honor at most one redirect hop, and
translate transport exceptions into the Unraid taxonomy. -/
def makeRequest (cfg : Config) (st : ClientState)
    (probe post1 post2 : Except PyNetExc HttpResponse) : RequestOutcome :=
  match resolveEndpoint cfg st probe with
  | (Except.error e, calls) =>
    { result := Except.error (ReqError.uncaught e), state := st, calls := calls }
  | (Except.ok (url, st1), calls) =>
    let body := makeRequestBody url st1 post1 post2
    { result :=
        match body.1 with
        | Except.ok j => Except.ok j
        | Except.error (Sum.inl e) => Except.error (handleExc e)
        | Except.error (Sum.inr u) => Except.error (ReqError.unraid u),
      state := body.2.1,
      calls := calls ++ body.2.2 }

/-! ### Operation sequences over the endpoint cache -/

/-- One operation on the endpoint cache: a request (with its scripted
network outcomes), or the caller clearing `_resolved_url` back to
`None`. -/
inductive ClientOp where
  | request (probe post1 post2 : Except PyNetExc HttpResponse)
  | clearCache

def stepClient (cfg : Config) (st : ClientState) : ClientOp → ClientState
  | ClientOp.request probe post1 post2 => (makeRequest cfg st probe post1 post2).state
  | ClientOp.clearCache => { resolvedUrl := none }

/-- A fresh client starts with `self._resolved_url = None`. -/
def initialClientState : ClientState := { resolvedUrl := none }

def runClient (cfg : Config) (st : ClientState) (ops : List ClientOp) : ClientState :=
  ops.foldl (stepClient cfg) st

/-- Does the URL carry an explicit `http://` or `https://` scheme
marker at its start. -/
def hasExplicitScheme (u : String) : Bool :=
  strStarts "http://" u || strStarts "https://" u

/-- The claimed invariant on the endpoint cache. -/
def endpointInv (st : ClientState) : Bool :=
  match st.resolvedUrl with
  | some u => hasExplicitScheme u
  | none => true

/-- A scripted call outcome whose `Location` header, if present and
non-empty, is an absolute URL with an explicit scheme. -/
def respLocOk (r : Except PyNetExc HttpResponse) : Bool :=
  match r with
  | Except.ok resp =>
    match resp.location with
    | some l => l == "" || hasExplicitScheme l
    | none => true
  | Except.error _ => true

def opOk : ClientOp → Bool
  | ClientOp.request probe post1 post2 => respLocOk probe && respLocOk post1 && respLocOk post2
  | ClientOp.clearCache => true

/-! ### Session lifecycle (`_create_session` / `close`) -/

/-- The session-related state of a client.  Session objects are
identified by numbers; `closed` records, in order, every session whose
`close()` the client awaited.  `nextId` feeds fresh identities to
internally created sessions (a freshly constructed aiohttp session is a
new object, distinct from every session seen before). -/
structure SessionState where
  session : Option Nat
  ownsSession : Bool
  nextId : Nat
  closed : List Nat

/-- `UnraidClient.__init__` (client.py lines 101-102):
`self._session = session; self._owns_session = session is None`. -/
def initClient (injected : Option Nat) : SessionState :=
  { session := injected
    ownsSession := injected.isNone
    nextId := (match injected with | some s => s + 1 | none => 0)
    closed := [] }

/-- `UnraidClient._create_session` (client.py lines 124-148): a no-op
when a session already exists; otherwise build a fresh session and take
ownership. -/
def createSession (st : SessionState) : SessionState :=
  match st.session with
  | some _ => st
  | none =>
    { session := some st.nextId
      ownsSession := true
      nextId := st.nextId + 1
      closed := st.closed }

/-- `UnraidClient.close` (client.py lines 150-154): close the session
and drop the reference only when one exists and the client owns it. -/
def closeClient (st : SessionState) : SessionState :=
  match st.session with
  | some s =>
    if st.ownsSession then
      { session := none
        ownsSession := st.ownsSession
        nextId := st.nextId
        closed := st.closed ++ [s] }
    else st
  | none => st

inductive SessOp where
  | create
  | close

def sessStep (st : SessionState) : SessOp → SessionState
  | SessOp.create => createSession st
  | SessOp.close => closeClient st

def runSession (st : SessionState) (ops : List SessOp) : SessionState :=
  ops.foldl sessStep st

/-! ### Concrete fixtures used by witnesses and counterexamples -/

/-- The reference configuration of the end-to-end scenario: bare IP
host, default ports. -/
def cfgDefault : Config := { host := "192.168.1.100", httpPort := 80, httpsPort := 443 }

/-- A 400 probe answer with an unrelated body. -/
def respBad400 : HttpResponse :=
  { status := 400, location := none, body := "Bad Request", jsonBody := Json.null }

/-- A successful GraphQL response carrying `online: true`. -/
def respOnline200 : HttpResponse :=
  { status := 200, location := none, body := "",
    jsonBody := Json.obj [("data", Json.obj [("online", Json.bool true)])] }

/-- A 303 See Other redirect towards a myunraid.net address. -/
def respSeeOther303 : HttpResponse :=
  { status := 303, location := some "https://sub.myunraid.net/graphql", body := "",
    jsonBody := Json.null }

/-- A 303 response without a Location header, carrying a JSON body. -/
def respPlain303 : HttpResponse :=
  { status := 303, location := none, body := "", jsonBody := Json.obj [("x", Json.num 1)] }

/-- A 301 redirect whose Location is protocol-relative (allowed by the
HTTP specification and passed through verbatim by aiohttp). -/
def respRelative301 : HttpResponse :=
  { status := 301, location := some "//tower.myunraid.net/graphql", body := "",
    jsonBody := Json.null }

/-- The nginx rejection of a plaintext request on a TLS port. -/
def respNginx400 : HttpResponse :=
  { status := 400, location := none,
    body := "<html>The plain HTTP request was sent to HTTPS port</html>",
    jsonBody := Json.null }

/-- A server error answer to the probe. -/
def respServerError500 : HttpResponse :=
  { status := 500, location := none, body := "oops", jsonBody := Json.null }

/-- A Strict-mode 302: redirect to a myunraid.net subdomain. -/
def respRedirStrict302 : HttpResponse :=
  { status := 302, location := some "https://sub.myunraid.net/graphql", body := "",
    jsonBody := Json.null }

/-- A Yes-mode 302 whose Location carries an explicit `:443`. -/
def respRedir443 : HttpResponse :=
  { status := 302, location := some "https://HOST:443/graphql", body := "",
    jsonBody := Json.null }

/-- A 302 towards a plain http URL. -/
def respRedirHttp : HttpResponse :=
  { status := 302, location := some "http://other/graphql", body := "",
    jsonBody := Json.null }

/-- A 302 without a Location header. -/
def respRedirNoLoc302 : HttpResponse :=
  { status := 302, location := none, body := "", jsonBody := Json.null }

/-- A 301 whose Location carries an out-of-range port. -/
def respRedirPort70000 : HttpResponse :=
  { status := 301, location := some "https://host:70000/graphql", body := "",
    jsonBody := Json.null }

/-- A 301 whose Location carries a non-numeric port. -/
def respRedirPortAbc : HttpResponse :=
  { status := 301, location := some "https://host:abc/graphql", body := "",
    jsonBody := Json.null }

/-- A 308 towards a bracketed IPv6 authority with an explicit `:443`. -/
def respRedirV6 : HttpResponse :=
  { status := 308, location := some "https://[::1]:443/graphql", body := "",
    jsonBody := Json.null }

/-! ### Helper lemmas -/

theorem chStarts_self_append (l rest : List Char) : chStarts l (l ++ rest) = true := by
  induction l with
  | nil => rfl
  | cons c cs ih => simp [chStarts, ih]

theorem chStarts_append2 (l r rest : List Char) :
    chStarts (l ++ r) (l ++ (r ++ rest)) = true := by
  induction l with
  | nil => simpa using chStarts_self_append r rest
  | cons c cs ih => simp [chStarts, ih]

theorem chHasSub_append_left (n pre : List Char) : chHasSub n (pre ++ n) = true := by
  induction pre with
  | nil =>
    cases n with
    | nil => rfl
    | cons c cs =>
      simp only [List.nil_append, chHasSub]
      have h := chStarts_self_append (c :: cs) []
      simp only [List.append_nil] at h
      simp [h]
  | cons c cs ih => simp [chHasSub, ih]

/-! ### C8: equal-port short-circuit -/

/-- C8: for any host and any configuration in which the configured HTTP
port equals the configured HTTPS port, `discover()` returns
`(null, useTLS=true)` without making any network call (the trace of
issued calls is empty). -/
theorem discover_equal_port_short_circuit (cfg : Config)
    (probe : Except PyNetExc HttpResponse) (h : cfg.httpPort = cfg.httpsPort) :
    discover cfg probe = (Except.ok (none, true), []) := by
  unfold discover
  rw [if_pos h]

theorem discover_equal_port_short_circuit_witness :
    ({ host := "tower.local", httpPort := 8443, httpsPort := 8443 } : Config).httpPort =
      ({ host := "tower.local", httpPort := 8443, httpsPort := 8443 } : Config).httpsPort ∧
    discover { host := "tower.local", httpPort := 8443, httpsPort := 8443 }
        (Except.error (PyNetExc.clientError "unreachable")) = (Except.ok (none, true), []) :=
  ⟨rfl, discover_equal_port_short_circuit _ _ rfl⟩

/-! ### C6: probe-failure fallback (corrected) -/

/-- C6 (amended): a probe failure raised as an `aiohttp.ClientError`
(connection refused, DNS failure, TLS handshake failure during the
plaintext attempt, connect-phase timeouts, ...) is swallowed by
`discover()`, which returns `(null, useTLS=true)`; an exception that is
not an `aiohttp.ClientError` — in particular the plain `TimeoutError`
raised by the total request timeout — is not caught and propagates to
the caller. -/
theorem discover_probe_failure_fallback (cfg : Config) (e : PyNetExc)
    (hp : cfg.httpPort ≠ cfg.httpsPort) :
    (e.isClientError = true →
      discover cfg (Except.error e) =
        (Except.ok (none, true), [NetCall.get (probeUrl cfg)]))
    ∧ (e.isClientError = false →
      discover cfg (Except.error e) =
        (Except.error e, [NetCall.get (probeUrl cfg)])) := by
  unfold discover
  rw [if_neg hp]
  constructor <;> intro h <;> simp [h]

theorem discover_probe_failure_fallback_witness :
    cfgDefault.httpPort ≠ cfgDefault.httpsPort ∧
    (PyNetExc.clientError "Cannot connect to host").isClientError = true ∧
    discover cfgDefault (Except.error (PyNetExc.clientError "Cannot connect to host")) =
      (Except.ok (none, true), [NetCall.get (probeUrl cfgDefault)]) :=
  ⟨by decide, rfl,
   (discover_probe_failure_fallback cfgDefault (PyNetExc.clientError "Cannot connect to host")
      (by decide)).1 rfl⟩

/-- C6 counterexample: the claim demands that a timeout during the
probe GET be swallowed with `(null, useTLS=true)`, but a plain
`TimeoutError` (the total-timeout exception, which is not an
`aiohttp.ClientError`) propagates out of `discover()` instead. -/
theorem discover_probe_timeout_counterexample :
    (discover cfgDefault (Except.error (PyNetExc.asyncioTimeoutError "Request timeout"))).1 =
      Except.error (PyNetExc.asyncioTimeoutError "Request timeout") ∧
    (discover cfgDefault (Except.error (PyNetExc.asyncioTimeoutError "Request timeout"))).1 ≠
      Except.ok (none, true) := by
  refine ⟨rfl, ?_⟩
  intro h
  rw [show (discover cfgDefault
      (Except.error (PyNetExc.asyncioTimeoutError "Request timeout"))).1 =
      Except.error (PyNetExc.asyncioTimeoutError "Request timeout") from rfl] at h
  simp at h

/-! ### C7: nginx-400 detection and generic-status fallback -/

/-- C7: a 400 probe response whose body contains, case-insensitively,
the sentinel "the plain http request was sent to https port" yields
`(null, true)`; a 400 with any other body yields `(null, false)`; and
any other non-3xx status yields `(null, false)`. -/
theorem discover_nginx_400_detection (cfg : Config) (r : HttpResponse)
    (hp : cfg.httpPort ≠ cfg.httpsPort) :
    (r.status = 400 →
      strHasSub "the plain http request was sent to https port" (strToLower r.body) = true →
      discover cfg (Except.ok r) = (Except.ok (none, true), [NetCall.get (probeUrl cfg)]))
    ∧ (r.status = 400 →
      strHasSub "the plain http request was sent to https port" (strToLower r.body) = false →
      discover cfg (Except.ok r) = (Except.ok (none, false), [NetCall.get (probeUrl cfg)]))
    ∧ (r.status / 100 ≠ 3 → r.status ≠ 400 →
      discover cfg (Except.ok r) = (Except.ok (none, false), [NetCall.get (probeUrl cfg)])) := by
  refine ⟨?_, ?_, ?_⟩
  · intro h400 hbody
    have hred : ¬(r.status = 301 ∨ r.status = 302 ∨ r.status = 307 ∨ r.status = 308) := by
      omega
    unfold discover discoverClassify
    rw [if_neg hp]
    simp [hred, h400, hbody]
  · intro h400 hbody
    have hred : ¬(r.status = 301 ∨ r.status = 302 ∨ r.status = 307 ∨ r.status = 308) := by
      omega
    unfold discover discoverClassify
    rw [if_neg hp]
    simp [hred, h400, hbody]
  · intro h3 h400
    have hred : ¬(r.status = 301 ∨ r.status = 302 ∨ r.status = 307 ∨ r.status = 308) := by
      omega
    unfold discover discoverClassify
    rw [if_neg hp]
    simp [hred, h400]

theorem discover_nginx_400_detection_witness :
    cfgDefault.httpPort ≠ cfgDefault.httpsPort ∧
    strHasSub "the plain http request was sent to https port"
      (strToLower respNginx400.body) = true ∧
    discover cfgDefault (Except.ok respNginx400) =
      (Except.ok (none, true), [NetCall.get (probeUrl cfgDefault)]) ∧
    discover cfgDefault (Except.ok respBad400) =
      (Except.ok (none, false), [NetCall.get (probeUrl cfgDefault)]) ∧
    discover cfgDefault (Except.ok respServerError500) =
      (Except.ok (none, false), [NetCall.get (probeUrl cfgDefault)]) :=
  ⟨by decide, by decide,
   (discover_nginx_400_detection cfgDefault respNginx400 (by decide)).1 rfl (by decide),
   (discover_nginx_400_detection cfgDefault respBad400 (by decide)).2.1 rfl (by decide),
   (discover_nginx_400_detection cfgDefault respServerError500 (by decide)).2.2
     (by decide) (by decide)⟩

/-! ### C1: redirect classification (corrected) -/

/-- C1 counterexample: the claim quantifies over all 3xx statuses, but
the code only treats 301, 302, 307 and 308 as redirects: a 303 See
Other pointing at a myunraid.net URL is classified as plain-HTTP mode
`(null, false)` instead of the claimed `(that URL, true)`. -/
theorem discover_redirect_other_3xx_counterexample :
    discover cfgDefault (Except.ok respSeeOther303) =
      (Except.ok (none, false), [NetCall.get "http://192.168.1.100/graphql"]) ∧
    ∀ u : String,
      (discover cfgDefault (Except.ok respSeeOther303)).1 ≠ Except.ok (some u, true) := by
  refine ⟨rfl, ?_⟩
  intro u h
  rw [show (discover cfgDefault (Except.ok respSeeOther303)).1 =
      Except.ok ((none : Option String), false) from rfl] at h
  simp at h

/-- Every error exit of `checkBracketedHost` raises `ValueError`,
never an `aiohttp.ClientError`. -/
theorem checkBracketedHost_error_not_clientError (hn : List Char) (e : PyNetExc)
    (h : checkBracketedHost hn = Except.error e) : e.isClientError = false := by
  unfold checkBracketedHost at h
  split at h
  · split at h
    · exact absurd h (by simp)
    · injection h with h2
      subst h2
      rfl
  · split at h
    · injection h with h2
      subst h2
      rfl
    · split at h
      · exact absurd h (by simp)
      · injection h with h2
        subst h2
        rfl

/-- Every error exit of `urlsplitBracketCheck` raises `ValueError`,
never an `aiohttp.ClientError`. -/
theorem urlsplitBracketCheck_error_not_clientError (nl : List Char) (e : PyNetExc)
    (h : urlsplitBracketCheck nl = Except.error e) : e.isClientError = false := by
  unfold urlsplitBracketCheck at h
  split at h
  · injection h with h2
    subst h2
    rfl
  · split at h
    · exact checkBracketedHost_error_not_clientError _ _ h
    · exact absurd h (by simp)

/-- Every error exit of `urlparse` raises `ValueError`, never an
`aiohttp.ClientError`. -/
theorem urlparse_error_not_clientError (u : String) (e : PyNetExc)
    (h : urlparse u = Except.error e) : e.isClientError = false := by
  simp only [urlparse] at h
  split at h
  case h_1 e0 heq =>
    injection h with h2
    subst h2
    exact urlsplitBracketCheck_error_not_clientError _ _ heq
  case h_2 => exact absurd h (by simp)

/-- Every error exit of the `port` accessor raises `ValueError`, never
an `aiohttp.ClientError`. -/
theorem port_error_not_clientError (p : ParsedUrl) (e : PyNetExc)
    (h : p.port = Except.error e) : e.isClientError = false := by
  unfold ParsedUrl.port at h
  split at h
  · exact absurd h (by simp)
  · split at h
    · split at h
      · exact absurd h (by simp)
      · injection h with h2
        subst h2
        rfl
    · injection h with h2
      subst h2
      rfl

/-- C1 (amended): for any probe response with status in
{301, 302, 307, 308} and a Location header: if the Location parses and
its hostname equals `myunraid.net` or is a subdomain of it,
`discover()` returns that absolute URL with `useTLS=true`; otherwise if
the Location's scheme is `https` and its port component is valid, it
returns the URL — with an explicit `:443` port suffix normalized away —
and `useTLS=true`; an invalid or out-of-range port in an https-scheme
Location, like an unparsable bracketed authority, raises `ValueError`,
which propagates uncaught out of `discover()`; otherwise (an
http-scheme Location, or a redirect without Location header) it falls
through to `(null, useTLS=false)`.  Other 3xx statuses are not treated
as redirects. -/
theorem discover_redirect_classification (cfg : Config) (r : HttpResponse)
    (hp : cfg.httpPort ≠ cfg.httpsPort)
    (hst : r.status = 301 ∨ r.status = 302 ∨ r.status = 307 ∨ r.status = 308) :
    (∀ loc parsed, r.location = some loc → loc ≠ "" → urlparse loc = Except.ok parsed →
      isMyunraidHost parsed.hostname = true →
      discover cfg (Except.ok r) =
        (Except.ok (some loc, true), [NetCall.get (probeUrl cfg)]))
    ∧ (∀ loc parsed p, r.location = some loc → loc ≠ "" → urlparse loc = Except.ok parsed →
      isMyunraidHost parsed.hostname = false → parsed.scheme = "https" →
      parsed.port = Except.ok p →
      discover cfg (Except.ok r) =
        (Except.ok (some (if p = some DEFAULT_HTTPS_PORT then
            "https://" ++ optHostStr parsed.hostname ++ parsed.path
          else loc), true), [NetCall.get (probeUrl cfg)]))
    ∧ (∀ loc parsed e, r.location = some loc → loc ≠ "" → urlparse loc = Except.ok parsed →
      isMyunraidHost parsed.hostname = false → parsed.scheme = "https" →
      parsed.port = Except.error e →
      discover cfg (Except.ok r) = (Except.error e, [NetCall.get (probeUrl cfg)]))
    ∧ (∀ loc e, r.location = some loc → loc ≠ "" → urlparse loc = Except.error e →
      discover cfg (Except.ok r) = (Except.error e, [NetCall.get (probeUrl cfg)]))
    ∧ (∀ loc parsed, r.location = some loc → loc ≠ "" → urlparse loc = Except.ok parsed →
      isMyunraidHost parsed.hostname = false → parsed.scheme ≠ "https" →
      discover cfg (Except.ok r) = (Except.ok (none, false), [NetCall.get (probeUrl cfg)]))
    ∧ (r.location = none →
      discover cfg (Except.ok r) =
        (Except.ok (none, false), [NetCall.get (probeUrl cfg)])) := by
  have h400 : r.status ≠ 400 := by omega
  refine ⟨?_, ?_, ?_, ?_, ?_, ?_⟩
  · intro loc parsed hloc hne hup hm
    have hc : discoverClassify r = Except.ok (some loc, true) := by
      unfold discoverClassify
      rw [hloc]
      simp [hst, hne, hup, hm]
    unfold discover
    rw [if_neg hp]
    simp [hc]
  · intro loc parsed p hloc hne hup hm hsc hpt
    have hc : discoverClassify r =
        Except.ok (some (if p = some DEFAULT_HTTPS_PORT then
            "https://" ++ optHostStr parsed.hostname ++ parsed.path
          else loc), true) := by
      unfold discoverClassify
      rw [hloc]
      by_cases hp443 : p = some DEFAULT_HTTPS_PORT <;>
        simp [hst, hne, hup, hm, hsc, hpt, hp443]
    unfold discover
    rw [if_neg hp]
    simp [hc]
  · intro loc parsed e hloc hne hup hm hsc hpt
    have hc : discoverClassify r = Except.error e := by
      unfold discoverClassify
      rw [hloc]
      simp [hst, hne, hup, hm, hsc, hpt]
    have hnc : e.isClientError = false := port_error_not_clientError parsed e hpt
    unfold discover
    rw [if_neg hp]
    simp [hc, hnc]
  · intro loc e hloc hne hup
    have hc : discoverClassify r = Except.error e := by
      unfold discoverClassify
      rw [hloc]
      simp [hst, hne, hup]
    have hnc : e.isClientError = false := urlparse_error_not_clientError loc e hup
    unfold discover
    rw [if_neg hp]
    simp [hc, hnc]
  · intro loc parsed hloc hne hup hm hsc
    have hc : discoverClassify r = Except.ok (none, false) := by
      unfold discoverClassify
      rw [hloc]
      simp [hst, hne, hup, hm, hsc, h400]
    unfold discover
    rw [if_neg hp]
    simp [hc]
  · intro hloc
    have hc : discoverClassify r = Except.ok (none, false) := by
      unfold discoverClassify
      rw [hloc]
      simp [hst, h400]
    unfold discover
    rw [if_neg hp]
    simp [hc]

theorem discover_redirect_classification_witness :
    discover cfgDefault (Except.ok respRedirStrict302) =
      (Except.ok (some "https://sub.myunraid.net/graphql", true),
       [NetCall.get (probeUrl cfgDefault)]) ∧
    discover cfgDefault (Except.ok respRedir443) =
      (Except.ok (some "https://host/graphql", true), [NetCall.get (probeUrl cfgDefault)]) ∧
    discover cfgDefault (Except.ok respRedirV6) =
      (Except.ok (some "https://::1/graphql", true), [NetCall.get (probeUrl cfgDefault)]) ∧
    discover cfgDefault (Except.ok respRedirPort70000) =
      (Except.error (PyNetExc.valueError "Port out of range 0-65535"),
       [NetCall.get (probeUrl cfgDefault)]) ∧
    discover cfgDefault (Except.ok respRedirPortAbc) =
      (Except.error (PyNetExc.valueError
          "Port could not be cast to integer value as \x27abc\x27"),
       [NetCall.get (probeUrl cfgDefault)]) ∧
    discover cfgDefault (Except.ok respRedirHttp) =
      (Except.ok (none, false), [NetCall.get (probeUrl cfgDefault)]) ∧
    discover cfgDefault (Except.ok respRedirNoLoc302) =
      (Except.ok (none, false), [NetCall.get (probeUrl cfgDefault)]) := by
  refine ⟨?_, ?_, ?_, ?_, ?_, ?_, ?_⟩
  · exact (discover_redirect_classification cfgDefault respRedirStrict302 (by decide)
      (Or.inr (Or.inl rfl))).1 "https://sub.myunraid.net/graphql" _ rfl (by decide) rfl
      (by decide)
  · exact (discover_redirect_classification cfgDefault respRedir443 (by decide)
      (Or.inr (Or.inl rfl))).2.1 "https://HOST:443/graphql" _ (some 443) rfl (by decide)
      rfl (by decide) (by decide) rfl
  · exact (discover_redirect_classification cfgDefault respRedirV6 (by decide)
      (Or.inr (Or.inr (Or.inr rfl)))).2.1 "https://[::1]:443/graphql" _ (some 443) rfl
      (by decide) rfl (by decide) (by decide) rfl
  · exact (discover_redirect_classification cfgDefault respRedirPort70000 (by decide)
      (Or.inl rfl)).2.2.1 "https://host:70000/graphql" _
      (PyNetExc.valueError "Port out of range 0-65535") rfl (by decide) rfl (by decide)
      (by decide) rfl
  · exact (discover_redirect_classification cfgDefault respRedirPortAbc (by decide)
      (Or.inl rfl)).2.2.1 "https://host:abc/graphql" _
      (PyNetExc.valueError "Port could not be cast to integer value as \x27abc\x27") rfl
      (by decide) rfl (by decide) (by decide) rfl
  · exact (discover_redirect_classification cfgDefault respRedirHttp (by decide)
      (Or.inr (Or.inl rfl))).2.2.2.2.1 "http://other/graphql" _ rfl (by decide) rfl
      (by decide) (by decide)
  · exact (discover_redirect_classification cfgDefault respRedirNoLoc302 (by decide)
      (Or.inr (Or.inl rfl))).2.2.2.2.2 rfl

/-! ### C2: GraphQL envelope interpretation -/

theorem lookup_none_of_keys_ne (k : String) (kvs : List (String × Json))
    (h : ∀ kv ∈ kvs, kv.1 ≠ k) : kvs.lookup k = none := by
  induction kvs with
  | nil => rfl
  | cons kv rest ih =>
    have hk : (k == kv.1) = false :=
      beq_eq_false_iff_ne.mpr (fun e => h kv (by simp) e.symm)
    simp only [List.lookup, hk]
    exact ih (fun kv2 hm => h kv2 (by simp [hm]))

theorem getD_of_hasKey_false (kvs : List (String × Json)) (k : String) (d : Json)
    (h : (Json.obj kvs).hasKey k = false) : (Json.obj kvs).getD k d = d := by
  have hall : ∀ kv ∈ kvs, kv.1 ≠ k := by
    intro kv hm he
    simp only [Json.hasKey, List.any_eq_false] at h
    exact absurd (beq_iff_eq.mpr he) (by simpa using h kv hm)
  simp [Json.getD, lookup_none_of_keys_ne k kvs hall]

/-- C2: for every decoded envelope (a JSON object whose `data` member,
when used, is itself an object, per the GraphQL response shape):
non-empty `errors` together with non-empty `data` returns the data
without raising; non-empty `errors` with absent or empty (falsy) `data`
raises `UnraidAPIError` with message "GraphQL query failed" carrying the
full errors array, and both string-form and
`\x7bmessage, path\x7d`-form errors render into the combined readable
message; no `errors` key at all returns `data`, or an empty object when
`data` itself is missing. -/
theorem query_envelope_interpretation (kvs : List (String × Json)) :
    (∀ es d, (Json.obj kvs).hasKey "errors" = true →
      (Json.obj kvs).getD "errors" Json.null = Json.arr es → es ≠ [] →
      (Json.obj kvs).getD "data" (Json.obj []) = Json.obj d → d ≠ [] →
      interpretEnvelope (Json.obj kvs) = Except.ok (Json.obj d))
    ∧ (∀ es, (Json.obj kvs).hasKey "errors" = true →
      (Json.obj kvs).getD "errors" Json.null = Json.arr es → es ≠ [] →
      ((Json.obj kvs).getD "data" (Json.obj [])).truthy = false →
      interpretEnvelope (Json.obj kvs) =
        Except.error (QueryError.raised (UnraidError.apiError "GraphQL query failed" es)))
    ∧ ((Json.obj kvs).hasKey "errors" = false →
      (∀ d, (Json.obj kvs).getD "data" (Json.obj []) = Json.obj d →
        interpretEnvelope (Json.obj kvs) = Except.ok (Json.obj d))
      ∧ ((Json.obj kvs).hasKey "data" = false →
        interpretEnvelope (Json.obj kvs) = Except.ok (Json.obj [])))
    ∧ (∀ s, renderErr (Json.str s) = s)
    ∧ (∀ m p, p ≠ [] →
      renderErr (Json.obj [("message", Json.str m), ("path", Json.arr p)]) =
        m ++ " (path: " ++ pyRepr (Json.arr p) ++ ")")
    ∧ (∀ msg es, es ≠ [] →
      (UnraidError.apiError msg es).toStr =
        msg ++ ": " ++ String.intercalate "; " (es.map renderErr)) := by
  refine ⟨?_, ?_, ?_, ?_, ?_, ?_⟩
  · intro es d hkey herrs hesne hd hdne
    have htr : ((Json.obj kvs).getD "data" (Json.obj [])).truthy = true := by
      rw [hd]
      simpa [Json.truthy] using hdne
    unfold interpretEnvelope
    rw [if_pos hkey, herrs, htr, hd]
    simp [pyDict]
  · intro es hkey herrs hesne htr
    unfold interpretEnvelope
    rw [if_pos hkey, herrs, htr]
    simp
  · intro hkey
    constructor
    · intro d hd
      unfold interpretEnvelope
      rw [if_neg (by simp [hkey]), hd]
      rfl
    · intro hdata
      unfold interpretEnvelope
      rw [if_neg (by simp [hkey]), getD_of_hasKey_false kvs "data" (Json.obj []) hdata]
      rfl
  · intro s
    rfl
  · intro m p hp
    have htr : (Json.arr p).truthy = true := by
      simpa [Json.truthy] using hp
    unfold renderErr
    simp [Json.getD, List.lookup, show ("path" == "message") = false from rfl, htr, pyStr]
  · intro msg es hes
    have : es.isEmpty = false := by simpa using hes
    simp [UnraidError.toStr, UnraidError.errorsList, UnraidError.message, this]

theorem query_envelope_interpretation_witness :
    interpretEnvelope (Json.obj [("data", Json.obj [("online", Json.bool true)]),
        ("errors", Json.arr [Json.str "ups offline"])]) =
      Except.ok (Json.obj [("online", Json.bool true)]) ∧
    interpretEnvelope (Json.obj [("errors",
        Json.arr [Json.str "boom",
          Json.obj [("message", Json.str "bad"), ("path", Json.arr [Json.str "q"])]])]) =
      Except.error (QueryError.raised (UnraidError.apiError "GraphQL query failed"
        [Json.str "boom",
         Json.obj [("message", Json.str "bad"), ("path", Json.arr [Json.str "q"])]])) ∧
    interpretEnvelope (Json.obj [("data", Json.obj [("a", Json.num 1)])]) =
      Except.ok (Json.obj [("a", Json.num 1)]) ∧
    interpretEnvelope (Json.obj []) = Except.ok (Json.obj []) ∧
    renderErr (Json.str "boom") = "boom" ∧
    renderErr (Json.obj [("message", Json.str "bad"), ("path", Json.arr [Json.str "q"])]) =
      "bad" ++ " (path: " ++ pyRepr (Json.arr [Json.str "q"]) ++ ")" ∧
    (UnraidError.apiError "GraphQL query failed" [Json.str "boom"]).toStr =
      "GraphQL query failed" ++ ": " ++
        String.intercalate "; " ([Json.str "boom"].map renderErr) := by
  refine ⟨?_, ?_, ?_, ?_, ?_, ?_, ?_⟩
  · exact (query_envelope_interpretation _).1 [Json.str "ups offline"]
      [("online", Json.bool true)] rfl rfl (by simp) rfl (by simp)
  · exact (query_envelope_interpretation _).2.1 _ rfl rfl (by simp) rfl
  · exact ((query_envelope_interpretation
      [("data", Json.obj [("a", Json.num 1)])]).2.2.1 rfl).1 [("a", Json.num 1)] rfl
  · exact ((query_envelope_interpretation [] ).2.2.1 rfl).2 rfl
  · exact (query_envelope_interpretation []).2.2.2.1 "boom"
  · exact (query_envelope_interpretation []).2.2.2.2.1 "bad" [Json.str "q"] (by simp)
  · exact (query_envelope_interpretation []).2.2.2.2.2 "GraphQL query failed"
      [Json.str "boom"] (by simp)

/-! ### C3: endpoint synthesis and caching -/

/-- C3: with no cached endpoint, resolution runs discovery; a truthy
candidate redirect URL is cached verbatim; otherwise the endpoint is
synthesized as scheme https/http according to useTLS, the cleaned host,
the configured port only when it differs from the default 443/80, and
the path `/graphql`.  For host 192.168.1.100 with default ports and a
400 probe answer with an unrelated body, the resolved endpoint becomes
`http://192.168.1.100/graphql`. -/
theorem execute_endpoint_synthesis (cfg : Config) (st : ClientState)
    (probe : Except PyNetExc HttpResponse) (hst : st.resolvedUrl = none) :
    (∀ r b calls, r ≠ "" → discover cfg probe = (Except.ok (some r, b), calls) →
      resolveEndpoint cfg st probe = (Except.ok (r, { resolvedUrl := some r }), calls))
    ∧ (∀ b calls, discover cfg probe = (Except.ok (none, b), calls) →
      resolveEndpoint cfg st probe =
        (Except.ok (synthesizeUrl cfg b, { resolvedUrl := some (synthesizeUrl cfg b) }),
         calls))
    ∧ (∀ b, synthesizeUrl cfg b =
        (if b then "https" else "http") ++ "://" ++ cleanHost cfg.host ++
          (if b then
            (if cfg.httpsPort ≠ DEFAULT_HTTPS_PORT then ":" ++ toString cfg.httpsPort else "")
           else
            (if cfg.httpPort ≠ DEFAULT_HTTP_PORT then ":" ++ toString cfg.httpPort else "")) ++
          "/graphql")
    ∧ (makeRequest cfgDefault initialClientState (Except.ok respBad400)
        (Except.ok respOnline200) (Except.ok respOnline200)).state.resolvedUrl =
      some "http://192.168.1.100/graphql" := by
  refine ⟨?_, ?_, ?_, ?_⟩
  · intro r b calls hr hd
    simp [resolveEndpoint, hst, hd, hr]
  · intro b calls hd
    simp [resolveEndpoint, hst, hd]
  · intro b
    cases b <;> rfl
  · rfl

theorem execute_endpoint_synthesis_witness :
    initialClientState.resolvedUrl = none ∧
    resolveEndpoint cfgDefault initialClientState (Except.ok respRedirStrict302) =
      (Except.ok ("https://sub.myunraid.net/graphql",
          { resolvedUrl := some "https://sub.myunraid.net/graphql" }),
       [NetCall.get (probeUrl cfgDefault)]) ∧
    resolveEndpoint cfgDefault initialClientState (Except.ok respBad400) =
      (Except.ok (synthesizeUrl cfgDefault false,
          { resolvedUrl := some (synthesizeUrl cfgDefault false) }),
       [NetCall.get (probeUrl cfgDefault)]) ∧
    synthesizeUrl cfgDefault false = "http://192.168.1.100/graphql" :=
  ⟨rfl,
   (execute_endpoint_synthesis cfgDefault initialClientState
      (Except.ok respRedirStrict302) rfl).1 "https://sub.myunraid.net/graphql" true
      [NetCall.get (probeUrl cfgDefault)] (by simp) rfl,
   (execute_endpoint_synthesis cfgDefault initialClientState
      (Except.ok respBad400) rfl).2.1 false [NetCall.get (probeUrl cfgDefault)] rfl,
   rfl⟩

/-! ### C4: single redirect hop during the POST -/

/-- C4: when the POST answer has status 301, 302, 307 or 308 with a
Location header, the cached endpoint is updated to that location and the
POST is re-issued exactly once to the new location, with no further
redirect-following on the second attempt; without a Location header the
call fails with a ConnectionFailure mentioning a redirect without
Location header; and a call made with a cached endpoint performs no
discovery probe — it only POSTs, starting at the cached location. -/
theorem execute_single_redirect_hop (cfg : Config) (u : String)
    (probe post2 : Except PyNetExc HttpResponse) (r : HttpResponse)
    (hst : r.status = 301 ∨ r.status = 302 ∨ r.status = 307 ∨ r.status = 308) :
    (∀ loc, r.location = some loc → loc ≠ "" →
      (makeRequest cfg { resolvedUrl := some u } probe (Except.ok r) post2).calls =
        [NetCall.post u, NetCall.post loc]
      ∧ (makeRequest cfg { resolvedUrl := some u } probe (Except.ok r) post2).state =
        { resolvedUrl := some loc }
      ∧ (∀ r2, post2 = Except.ok r2 → r2.status < 400 →
        (makeRequest cfg { resolvedUrl := some u } probe (Except.ok r) post2).result =
          Except.ok r2.jsonBody))
    ∧ (r.location = none →
      (makeRequest cfg { resolvedUrl := some u } probe (Except.ok r) post2).result =
        Except.error (ReqError.unraid (UnraidError.connectionError
          ("Redirect " ++ toString r.status ++ " without Location header")))
      ∧ strHasSub "without Location header"
          ("Redirect " ++ toString r.status ++ " without Location header") = true)
    ∧ (∀ loc2 (probe2 q1 q2 : Except PyNetExc HttpResponse),
      (makeRequest cfg { resolvedUrl := some loc2 } probe2 q1 q2).calls.all
        NetCall.isPost = true
      ∧ (makeRequest cfg { resolvedUrl := some loc2 } probe2 q1 q2).calls.head? =
        some (NetCall.post loc2)) := by
  refine ⟨?_, ?_, ?_⟩
  · intro loc hloc hne
    refine ⟨?_, ?_, ?_⟩
    · cases post2 with
      | error e => simp [makeRequest, resolveEndpoint, makeRequestBody, hst, hloc, hne]
      | ok r2 =>
        by_cases h4 : r2.status ≥ 400 <;>
          simp [makeRequest, resolveEndpoint, makeRequestBody, hst, hloc, hne, h4]
    · cases post2 with
      | error e => simp [makeRequest, resolveEndpoint, makeRequestBody, hst, hloc, hne]
      | ok r2 =>
        by_cases h4 : r2.status ≥ 400 <;>
          simp [makeRequest, resolveEndpoint, makeRequestBody, hst, hloc, hne, h4]
    · intro r2 hp2 h4
      have h4n : ¬(r2.status ≥ 400) := by omega
      subst hp2
      simp [makeRequest, resolveEndpoint, makeRequestBody, hst, hloc, hne, h4n]
  · intro hloc
    constructor
    · simp [makeRequest, resolveEndpoint, makeRequestBody, hst, hloc]
    · unfold strHasSub
      rw [String.data_append]
      rw [show (" without Location header").data =
          [' '] ++ ("without Location header").data from rfl]
      rw [← List.append_assoc]
      exact chHasSub_append_left _ _
  · intro loc2 probe2 q1 q2
    have hre : resolveEndpoint cfg { resolvedUrl := some loc2 } probe2 =
        (Except.ok (loc2, { resolvedUrl := some loc2 }), []) := rfl
    cases q1 with
    | error e => simp [makeRequest, hre, makeRequestBody, NetCall.isPost]
    | ok resp =>
      by_cases h1 : resp.status = 301 ∨ resp.status = 302 ∨
          resp.status = 307 ∨ resp.status = 308
      · cases hl : resp.location with
        | none => simp [makeRequest, hre, makeRequestBody, h1, hl, NetCall.isPost]
        | some l =>
          by_cases hl2 : l = ""
          · simp [makeRequest, hre, makeRequestBody, h1, hl, hl2, NetCall.isPost]
          · cases q2 with
            | error e2 =>
              simp [makeRequest, hre, makeRequestBody, h1, hl, hl2, NetCall.isPost]
            | ok r2 =>
              by_cases h4 : r2.status ≥ 400 <;>
                simp [makeRequest, hre, makeRequestBody, h1, hl, hl2, h4, NetCall.isPost]
      · by_cases h2 : resp.status = 401 ∨ resp.status = 403
        · simp [makeRequest, hre, makeRequestBody, h1, h2, NetCall.isPost]
        · by_cases h3 : resp.status ≥ 400 <;>
            simp [makeRequest, hre, makeRequestBody, h1, h2, h3, NetCall.isPost]

theorem execute_single_redirect_hop_witness :
    (makeRequest cfgDefault { resolvedUrl := some "http://192.168.1.100/graphql" }
        (Except.ok respBad400) (Except.ok respRedirStrict302) (Except.ok respOnline200)).calls =
      [NetCall.post "http://192.168.1.100/graphql",
       NetCall.post "https://sub.myunraid.net/graphql"] ∧
    (makeRequest cfgDefault { resolvedUrl := some "http://192.168.1.100/graphql" }
        (Except.ok respBad400) (Except.ok respRedirStrict302) (Except.ok respOnline200)).state =
      { resolvedUrl := some "https://sub.myunraid.net/graphql" } ∧
    (makeRequest cfgDefault { resolvedUrl := some "http://192.168.1.100/graphql" }
        (Except.ok respBad400) (Except.ok respRedirStrict302) (Except.ok respOnline200)).result =
      Except.ok respOnline200.jsonBody ∧
    (makeRequest cfgDefault { resolvedUrl := some "http://192.168.1.100/graphql" }
        (Except.ok respBad400) (Except.ok respRedirNoLoc302) (Except.ok respOnline200)).result =
      Except.error (ReqError.unraid (UnraidError.connectionError
        ("Redirect " ++ toString respRedirNoLoc302.status ++ " without Location header"))) ∧
    (makeRequest cfgDefault { resolvedUrl := some "https://sub.myunraid.net/graphql" }
        (Except.ok respBad400) (Except.ok respOnline200) (Except.ok respOnline200)).calls.all
      NetCall.isPost = true := by
  have h := execute_single_redirect_hop cfgDefault "http://192.168.1.100/graphql"
    (Except.ok respBad400) (Except.ok respOnline200) respRedirStrict302
    (Or.inr (Or.inl rfl))
  have h1 := h.1 "https://sub.myunraid.net/graphql" rfl (by simp)
  have h2 := (execute_single_redirect_hop cfgDefault "http://192.168.1.100/graphql"
    (Except.ok respBad400) (Except.ok respOnline200) respRedirNoLoc302
    (Or.inr (Or.inl rfl))).2.1 rfl
  exact ⟨h1.1, h1.2.1, h1.2.2 respOnline200 rfl (by decide), h2.1,
    ((execute_single_redirect_hop cfgDefault "unused" (Except.ok respBad400)
        (Except.ok respOnline200) respRedirStrict302 (Or.inr (Or.inl rfl))).2.2
      "https://sub.myunraid.net/graphql" (Except.ok respBad400)
      (Except.ok respOnline200) (Except.ok respOnline200)).1⟩

/-! ### C5: failure taxonomy (corrected) -/

/-- C5 counterexample: the claim says every non-2xx, non-redirect
status raises ConnectionFailure, but `raise_for_status()` only raises
for status >= 400: a 303 response (non-2xx, outside the handled
redirect set) raises nothing — its JSON body is returned. -/
theorem execute_303_not_raised_counterexample :
    (makeRequest cfgDefault { resolvedUrl := some "http://192.168.1.100/graphql" }
        (Except.ok respBad400) (Except.ok respPlain303) (Except.ok respOnline200)).result =
      Except.ok (Json.obj [("x", Json.num 1)]) ∧
    ∀ e, (makeRequest cfgDefault { resolvedUrl := some "http://192.168.1.100/graphql" }
        (Except.ok respBad400) (Except.ok respPlain303) (Except.ok respOnline200)).result ≠
      Except.error e := by
  refine ⟨rfl, ?_⟩
  intro e h
  rw [show (makeRequest cfgDefault { resolvedUrl := some "http://192.168.1.100/graphql" }
      (Except.ok respBad400) (Except.ok respPlain303) (Except.ok respOnline200)).result =
      Except.ok (Json.obj [("x", Json.num 1)]) from rfl] at h
  simp at h

/-- C5 (amended): status 401 or 403 raises AuthenticationFailure; any
other status >= 400 raises ConnectionFailure; a non-2xx status below
400 outside {301, 302, 307, 308} raises nothing (the body is parsed and
returned); a timeout raises TimeoutFailure; a TLS certificate failure
raises SSLFailure, which also satisfies an isinstance check against
ConnectionFailure; any other transport error raises ConnectionFailure. -/
theorem execute_failure_taxonomy (cfg : Config) (u : String)
    (probe post2 : Except PyNetExc HttpResponse) :
    (∀ r : HttpResponse, r.status = 401 ∨ r.status = 403 →
      (makeRequest cfg { resolvedUrl := some u } probe (Except.ok r) post2).result =
        Except.error (ReqError.unraid (UnraidError.authenticationError
          "Invalid API key or insufficient permissions")))
    ∧ (∀ r : HttpResponse, r.status ≥ 400 → r.status ≠ 401 → r.status ≠ 403 →
      (makeRequest cfg { resolvedUrl := some u } probe (Except.ok r) post2).result =
        Except.error (ReqError.unraid (UnraidError.connectionError
          ("Connection failed: " ++ (PyNetExc.clientResponseError r.status).msg))))
    ∧ (∀ r : HttpResponse, r.status < 400 →
      ¬(r.status = 301 ∨ r.status = 302 ∨ r.status = 307 ∨ r.status = 308) →
      (makeRequest cfg { resolvedUrl := some u } probe (Except.ok r) post2).result =
        Except.ok r.jsonBody)
    ∧ (∀ e : PyNetExc, e.isTimeoutError = true →
      (makeRequest cfg { resolvedUrl := some u } probe (Except.error e) post2).result =
        Except.error (ReqError.unraid (UnraidError.timeoutError
          ("Request timed out: " ++ e.msg))))
    ∧ (∀ m, (makeRequest cfg { resolvedUrl := some u } probe
        (Except.error (PyNetExc.clientSSLError m)) post2).result =
      Except.error (ReqError.unraid (UnraidError.sslError
        ("SSL certificate verification failed: " ++ m))))
    ∧ (∀ m, (UnraidError.sslError m).isConnectionError = true
      ∧ (UnraidError.sslError m).isAPIError = true)
    ∧ (∀ m, (makeRequest cfg { resolvedUrl := some u } probe
        (Except.error (PyNetExc.clientError m)) post2).result =
      Except.error (ReqError.unraid (UnraidError.connectionError
        ("Connection failed: " ++ m)))) := by
  refine ⟨?_, ?_, ?_, ?_, ?_, ?_, ?_⟩
  · intro r h
    have h1 : ¬(r.status = 301 ∨ r.status = 302 ∨ r.status = 307 ∨ r.status = 308) := by
      omega
    simp [makeRequest, resolveEndpoint, makeRequestBody, h1, h]
  · intro r h h1 h3
    have hred : ¬(r.status = 301 ∨ r.status = 302 ∨ r.status = 307 ∨ r.status = 308) := by
      omega
    have hauth : ¬(r.status = 401 ∨ r.status = 403) := by omega
    simp [makeRequest, resolveEndpoint, makeRequestBody, hred, hauth, h, handleExc,
      PyNetExc.isTimeoutError, PyNetExc.isClientSSLError, PyNetExc.isClientError]
  · intro r h hred
    have hauth : ¬(r.status = 401 ∨ r.status = 403) := by omega
    have h4 : ¬(r.status ≥ 400) := by omega
    simp [makeRequest, resolveEndpoint, makeRequestBody, hred, hauth, h4]
  · intro e he
    simp [makeRequest, resolveEndpoint, makeRequestBody, handleExc, he, PyNetExc.msg]
  · intro m
    simp [makeRequest, resolveEndpoint, makeRequestBody, handleExc,
      PyNetExc.isTimeoutError, PyNetExc.isClientSSLError, PyNetExc.msg]
  · intro m
    exact ⟨rfl, rfl⟩
  · intro m
    simp [makeRequest, resolveEndpoint, makeRequestBody, handleExc,
      PyNetExc.isTimeoutError, PyNetExc.isClientSSLError, PyNetExc.isClientError,
      PyNetExc.msg]

theorem execute_failure_taxonomy_witness :
    (makeRequest cfgDefault { resolvedUrl := some "http://h/graphql" }
        (Except.ok respBad400)
        (Except.ok { status := 401, location := none, body := "", jsonBody := Json.null })
        (Except.ok respOnline200)).result =
      Except.error (ReqError.unraid (UnraidError.authenticationError
        "Invalid API key or insufficient permissions")) ∧
    (makeRequest cfgDefault { resolvedUrl := some "http://h/graphql" }
        (Except.ok respBad400) (Except.ok respServerError500)
        (Except.ok respOnline200)).result =
      Except.error (ReqError.unraid (UnraidError.connectionError
        ("Connection failed: " ++ (PyNetExc.clientResponseError 500).msg))) ∧
    (makeRequest cfgDefault { resolvedUrl := some "http://h/graphql" }
        (Except.ok respBad400) (Except.error (PyNetExc.asyncioTimeoutError "deadline"))
        (Except.ok respOnline200)).result =
      Except.error (ReqError.unraid (UnraidError.timeoutError
        ("Request timed out: " ++ "deadline"))) ∧
    (makeRequest cfgDefault { resolvedUrl := some "http://h/graphql" }
        (Except.ok respBad400) (Except.error (PyNetExc.clientSSLError "bad cert"))
        (Except.ok respOnline200)).result =
      Except.error (ReqError.unraid (UnraidError.sslError
        ("SSL certificate verification failed: " ++ "bad cert"))) ∧
    (UnraidError.sslError "bad cert").isConnectionError = true ∧
    (makeRequest cfgDefault { resolvedUrl := some "http://h/graphql" }
        (Except.ok respBad400) (Except.error (PyNetExc.clientError "refused"))
        (Except.ok respOnline200)).result =
      Except.error (ReqError.unraid (UnraidError.connectionError
        ("Connection failed: " ++ "refused"))) := by
  have h := execute_failure_taxonomy cfgDefault "http://h/graphql"
    (Except.ok respBad400) (Except.ok respOnline200)
  exact ⟨h.1 _ (Or.inl rfl),
    h.2.1 respServerError500 (by decide) (by decide) (by decide),
    h.2.2.2.1 _ rfl,
    h.2.2.2.2.1 "bad cert",
    (h.2.2.2.2.2.1 "bad cert").1,
    h.2.2.2.2.2.2 "refused"⟩

/-! ### C9: resolved-endpoint invariant (corrected) -/

theorem strStarts_expand3 (p a b c : String) :
    strStarts p (((p ++ a) ++ b) ++ c) = true := by
  unfold strStarts
  simp only [String.data_append, List.append_assoc]
  exact chStarts_self_append _ _

theorem strStarts_expand2 (p a b : String) : strStarts p ((p ++ a) ++ b) = true := by
  unfold strStarts
  simp only [String.data_append, List.append_assoc]
  exact chStarts_self_append _ _

theorem hasExplicitScheme_synthesizeUrl (cfg : Config) (b : Bool) :
    hasExplicitScheme (synthesizeUrl cfg b) = true := by
  cases b
  · have h : strStarts "http://" (synthesizeUrl cfg false) = true := by
      unfold synthesizeUrl
      exact strStarts_expand3 ("http" ++ "://") _ _ _
    simp [hasExplicitScheme, h]
  · have h : strStarts "https://" (synthesizeUrl cfg true) = true := by
      unfold synthesizeUrl
      exact strStarts_expand3 ("https" ++ "://") _ _ _
    simp [hasExplicitScheme, h]

theorem respLocOk_scheme (resp : HttpResponse) (l : String)
    (hok : respLocOk (Except.ok resp) = true) (hl : resp.location = some l)
    (hne : l ≠ "") : hasExplicitScheme l = true := by
  simp only [respLocOk, hl] at hok
  cases (Bool.or_eq_true _ _).mp hok with
  | inl h => exact absurd (beq_iff_eq.mp h) hne
  | inr h => exact h

theorem discoverClassify_some_hasScheme (resp : HttpResponse)
    (hok : respLocOk (Except.ok resp) = true) :
    ∀ r b, discoverClassify resp = Except.ok (some r, b) → hasExplicitScheme r = true := by
  intro r b h
  unfold discoverClassify at h
  by_cases h1 : resp.status = 301 ∨ resp.status = 302 ∨ resp.status = 307 ∨ resp.status = 308
  · cases hl : resp.location with
    | none =>
      rw [hl] at h
      simp [h1] at h
      split at h <;> simp at h
    | some l =>
      rw [hl] at h
      by_cases hle : l = ""
      · simp [h1, hle] at h
        split at h <;> simp at h
      · have hsch := respLocOk_scheme resp l hok hl hle
        cases hup : urlparse l with
        | error e => simp [h1, hle, hup] at h
        | ok parsed =>
          by_cases hm : isMyunraidHost parsed.hostname
          · simp [h1, hle, hup, hm] at h
            rw [← h.1]
            exact hsch
          · by_cases hsc : parsed.scheme = "https"
            · cases hpt : parsed.port with
              | error e => simp [h1, hle, hup, hm, hsc, hpt] at h
              | ok p =>
                by_cases hp443 : p = some DEFAULT_HTTPS_PORT
                · simp [h1, hle, hup, hm, hsc, hpt, hp443] at h
                  rw [← h.1]
                  simp [hasExplicitScheme, strStarts_expand2]
                · simp [h1, hle, hup, hm, hsc, hpt, hp443] at h
                  rw [← h.1]
                  exact hsch
            · simp [h1, hle, hup, hm, hsc] at h
              split at h <;> simp at h
  · simp [h1] at h
    split at h <;> simp at h

theorem discover_some_hasScheme (cfg : Config) (probe : Except PyNetExc HttpResponse)
    (hok : respLocOk probe = true) :
    ∀ r b calls, discover cfg probe = (Except.ok (some r, b), calls) →
      hasExplicitScheme r = true := by
  intro r b calls h
  cases probe with
  | error e =>
    unfold discover at h
    split at h
    · simp at h
    · by_cases hc : e.isClientError = true <;> simp [hc] at h
  | ok resp =>
    unfold discover at h
    split at h
    · simp at h
    · simp at h
      obtain ⟨h1, h2⟩ := h
      split at h1
      next e2 heq => split at h1 <;> simp at h1
      next rr heq =>
        injection h1 with h3
        rw [h3] at heq
        exact discoverClassify_some_hasScheme resp hok r b heq

theorem resolveEndpoint_inv (cfg : Config) (st : ClientState)
    (probe : Except PyNetExc HttpResponse)
    (hinv : endpointInv st = true) (hok : respLocOk probe = true) :
    ∀ url st1 calls, resolveEndpoint cfg st probe = (Except.ok (url, st1), calls) →
      endpointInv st1 = true := by
  intro url st1 calls h
  unfold resolveEndpoint at h
  cases hru : st.resolvedUrl with
  | some u =>
    rw [hru] at h
    simp at h
    rw [← h.1.2]
    exact hinv
  | none =>
    rw [hru] at h
    cases hd : discover cfg probe with
    | mk res calls2 =>
      rw [hd] at h
      cases res with
      | error e => simp at h
      | ok p =>
        obtain ⟨ru, us⟩ := p
        cases ru with
        | none =>
          simp at h
          rw [← h.1.2]
          simp [endpointInv, hasExplicitScheme_synthesizeUrl]
        | some rr =>
          by_cases hre : rr = ""
          · simp [hre] at h
            rw [← h.1.2]
            simp [endpointInv, hasExplicitScheme_synthesizeUrl]
          · simp [hre] at h
            rw [← h.1.2]
            simp only [endpointInv]
            exact discover_some_hasScheme cfg probe hok rr us calls2 hd

theorem makeRequestBody_state_inv (url : String) (st : ClientState)
    (post1 post2 : Except PyNetExc HttpResponse)
    (hinv : endpointInv st = true) (hok : respLocOk post1 = true) :
    endpointInv (makeRequestBody url st post1 post2).2.1 = true := by
  cases post1 with
  | error e => simpa [makeRequestBody] using hinv
  | ok resp =>
    unfold makeRequestBody
    by_cases h1 : resp.status = 301 ∨ resp.status = 302 ∨ resp.status = 307 ∨ resp.status = 308
    · cases hl : resp.location with
      | none => simp [h1, hl, hinv]
      | some l =>
        by_cases hle : l = ""
        · simp [h1, hl, hle, hinv]
        · have hsch := respLocOk_scheme resp l hok hl hle
          cases post2 with
          | error e => simp [h1, hl, hle, endpointInv, hsch]
          | ok r2 =>
            by_cases h4 : r2.status ≥ 400 <;>
              simp [h1, hl, hle, h4, endpointInv, hsch]
    · by_cases h2 : resp.status = 401 ∨ resp.status = 403
      · simp [h1, h2, hinv]
      · by_cases h3 : resp.status ≥ 400 <;> simp [h1, h2, h3, hinv]

theorem stepClient_preserves_inv (cfg : Config) (st : ClientState) (op : ClientOp)
    (hinv : endpointInv st = true) (hop : opOk op = true) :
    endpointInv (stepClient cfg st op) = true := by
  cases op with
  | clearCache => rfl
  | request probe post1 post2 =>
    simp only [opOk, Bool.and_eq_true] at hop
    obtain ⟨⟨hokp, hok1⟩, hok2⟩ := hop
    simp only [stepClient, makeRequest]
    cases hre : resolveEndpoint cfg st probe with
    | mk res calls =>
      cases res with
      | error e => exact hinv
      | ok p =>
        obtain ⟨url, st1⟩ := p
        have hinv1 : endpointInv st1 = true :=
          resolveEndpoint_inv cfg st probe hinv hokp url st1 calls hre
        exact makeRequestBody_state_inv url st1 post1 post2 hinv1 hok1

/-- C9 (amended): over any sequence of client operations (requests and
manual cache clears) in which every Location header the client observes
is either empty or an absolute URL with an explicit scheme, the cached
resolved endpoint, whenever non-null, carries an explicit `http://` or
`https://` scheme.  (Synthesized and discovery-normalized endpoints
always do; Location values are cached verbatim, so the invariant needs
the stated assumption on them.) -/
theorem endpoint_scheme_invariant (cfg : Config) (ops : List ClientOp)
    (hops : ops.all opOk = true) :
    endpointInv (runClient cfg initialClientState ops) = true := by
  have main : ∀ (l : List ClientOp) (st : ClientState), endpointInv st = true →
      l.all opOk = true → endpointInv (runClient cfg st l) = true := by
    intro l
    induction l with
    | nil => intro st h _; exact h
    | cons op rest ih =>
      intro st h hall
      rw [List.all_cons, Bool.and_eq_true] at hall
      exact ih (stepClient cfg st op) (stepClient_preserves_inv cfg st op h hall.1) hall.2
  exact main ops initialClientState rfl hops

theorem endpoint_scheme_invariant_witness :
    ([ClientOp.request (Except.ok respRedirStrict302) (Except.ok respOnline200)
        (Except.ok respOnline200),
      ClientOp.clearCache,
      ClientOp.request (Except.ok respBad400) (Except.ok respOnline200)
        (Except.ok respOnline200)].all opOk) = true ∧
    endpointInv (runClient cfgDefault initialClientState
      [ClientOp.request (Except.ok respRedirStrict302) (Except.ok respOnline200)
        (Except.ok respOnline200),
       ClientOp.clearCache,
       ClientOp.request (Except.ok respBad400) (Except.ok respOnline200)
        (Except.ok respOnline200)]) = true :=
  ⟨by decide, endpoint_scheme_invariant cfgDefault _ (by decide)⟩

/-- C9 counterexample: a 301 probe answer whose Location is the
protocol-relative URL `//tower.myunraid.net/graphql` (a legal HTTP
Location) passes the myunraid hostname test and is cached verbatim, so
the resolved endpoint ends up with no explicit scheme — the claimed
invariant is false after this operation. -/
theorem endpoint_scheme_invariant_counterexample :
    (runClient cfgDefault initialClientState
        [ClientOp.request (Except.ok respRelative301) (Except.ok respOnline200)
          (Except.ok respOnline200)]).resolvedUrl = some "//tower.myunraid.net/graphql" ∧
    endpointInv (runClient cfgDefault initialClientState
        [ClientOp.request (Except.ok respRelative301) (Except.ok respOnline200)
          (Except.ok respOnline200)]) = false := ⟨rfl, rfl⟩

/-! ### C10: session lifecycle, ownership, idempotence -/

theorem injected_sess_inv (i : Nat) (ops : List SessOp) :
    (runSession (initClient (some i)) ops).session = some i ∧
    (runSession (initClient (some i)) ops).ownsSession = false ∧
    (runSession (initClient (some i)) ops).closed = [] := by
  have main : ∀ (l : List SessOp) (st : SessionState),
      st.session = some i → st.ownsSession = false → st.closed = [] →
      ((runSession st l).session = some i ∧ (runSession st l).ownsSession = false ∧
       (runSession st l).closed = []) := by
    intro l
    induction l with
    | nil =>
      intro st h1 h2 h3
      exact ⟨h1, h2, h3⟩
    | cons op rest ih =>
      intro st h1 h2 h3
      have hstep : (sessStep st op).session = some i ∧
          (sessStep st op).ownsSession = false ∧ (sessStep st op).closed = [] := by
        cases op with
        | create => simp [sessStep, createSession, h1, h2, h3]
        | close => simp [sessStep, closeClient, h1, h2, h3]
      exact ih _ hstep.1 hstep.2.1 hstep.2.2
  exact main ops _ rfl rfl rfl

/-- C10: creating the session when one already exists is a no-op that
keeps the existing session object; a client constructed with an
injected session never closes it, over any sequence of create/close
operations; a client that owns its session closes it exactly once on
close, with a second close a no-op. -/
theorem session_lifecycle_ownership (st : SessionState) (s : Nat) (i : Nat)
    (ops : List SessOp) :
    (st.session = some s → createSession st = st)
    ∧ (runSession (initClient (some i)) ops).closed = []
    ∧ (st.session = some s → st.ownsSession = true →
      (closeClient st).closed = st.closed ++ [s]
      ∧ (closeClient st).session = none
      ∧ closeClient (closeClient st) = closeClient st)
    ∧ ((closeClient (createSession (initClient none))).closed = [0]
      ∧ closeClient (closeClient (createSession (initClient none))) =
        closeClient (createSession (initClient none))) := by
  refine ⟨?_, (injected_sess_inv i ops).2.2, ?_, rfl, rfl⟩
  · intro h
    simp [createSession, h]
  · intro h1 h2
    refine ⟨?_, ?_, ?_⟩
    · simp [closeClient, h1, h2]
    · simp [closeClient, h1, h2]
    · simp [closeClient, h1, h2]

theorem session_lifecycle_ownership_witness :
    createSession (createSession (initClient none)) = createSession (initClient none) ∧
    (runSession (initClient (some 5)) [SessOp.create, SessOp.close, SessOp.close]).closed
      = [] ∧
    (closeClient (createSession (initClient none))).closed =
      (createSession (initClient none)).closed ++ [0] ∧
    closeClient (closeClient (createSession (initClient none))) =
      closeClient (createSession (initClient none)) := by
  have h := session_lifecycle_ownership (createSession (initClient none)) 0 5
    [SessOp.create, SessOp.close, SessOp.close]
  exact ⟨h.1 rfl, h.2.1, (h.2.2.1 rfl rfl).1, h.2.2.2.2⟩

end UnraidApi
